import Mathlib

/-!
Shallow embedding of the StoryBoard Launchpad import writer
(`storyboard/migrate/launchpad/writer.py`) and of the timeline-event
resolution step of the REST model layer (`storyboard/api/v1/wmodels.py`).

Python strings are modelled as `List Char`; the persistent store is a
record of entity lists with a fresh-id counter; the OpenID discovery call
is a function parameter (it is an external network protocol); a raised
Python exception is modelled as `none` in an `Option` result.
-/

/-- Python strings are modelled as lists of characters. -/
abbrev Str : Type := List Char

/-! ## The trailing-id regular expression of `write_bug`

`write_bug` runs `re.search("([0-9]+)$", str(bug.self_link))`.  In Python
the dollar anchor matches at the very end of the string and also just
before one final newline character, and `re.search` returns the
leftmost-longest such match, which is the maximal trailing run of digits.
-/

/-- Model of the dollar anchor of Python `re`: a pattern anchored at the
string end may also match just before one final newline character. -/
def dropFinalNewline (s : Str) : Str :=
  if s.getLast? = some '\n' then s.dropLast else s

/-- Maximal run of decimal digits at the end of the string. -/
def trailingDigits (s : Str) : Str :=
  (s.reverse.takeWhile Char.isDigit).reverse

/-- Python `int` applied to a string of decimal digits. -/
def digitsToNat (s : Str) : Nat :=
  s.foldl (fun n c => 10 * n + (c.toNat - 48)) 0

/-- Launchpad id extracted from the bug self link by
`re.search("([0-9]+)$", str(bug.self_link))` followed by `int`; `none`
when the search finds no match (writer.py lines 162-170). -/
def extractLaunchpadId (s : Str) : Option Nat :=
  let run := trailingDigits (dropFinalNewline s)
  if run.isEmpty then none else some (digitsToNat run)

/-! ## Event type constants -/

/-- Modelled from the spec: the event-type constants of
`storyboard/common/event_types` (the module is not under `src/`); the spec
enumerates nine kinds (story-created, story-details-changed, user-comment,
task-created, task-status-changed, task-priority-changed,
task-assignee-changed, task-details-changed, task-deleted).  Only the
identity and distinctness of these strings matter to the code. -/
def STORY_CREATED : Str := "story-created".toList

def STORY_DETAILS_CHANGED : Str := "story-details-changed".toList

def USER_COMMENT : Str := "user-comment".toList

def TASK_CREATED : Str := "task-created".toList

def TASK_STATUS_CHANGED : Str := "task-status-changed".toList

def TASK_PRIORITY_CHANGED : Str := "task-priority-changed".toList

def TASK_ASSIGNEE_CHANGED : Str := "task-assignee-changed".toList

def TASK_DETAILS_CHANGED : Str := "task-details-changed".toList

def TASK_DELETED : Str := "task-deleted".toList

/-! ## Store entities -/

/-- A StoryBoard tag row (`StoryTag`). -/
structure TagRec where
  id : Nat
  name : Str
deriving DecidableEq

/-- A StoryBoard user row. -/
structure UserRec where
  id : Nat
  username : Str
  openid : Str
  full_name : Str
  email : Str
deriving DecidableEq

/-- A StoryBoard project row. -/
structure ProjectRec where
  id : Nat
  name : Str
deriving DecidableEq

/-- A StoryBoard story row; the fields are the ones the writer sets
(writer.py lines 184-193).  `creator` and `tags` hold the entities passed
in, as in the source dict. -/
structure StoryRec where
  id : Nat
  description : Str
  created_at : Option Str
  creator : UserRec
  is_bug : Bool
  title : Str
  updated_at : Option Str
  tags : List TagRec
deriving DecidableEq

/-- A StoryBoard task row (writer.py lines 208-217). -/
structure TaskRec where
  id : Nat
  title : Str
  assignee_id : Option Nat
  project_id : Nat
  story_id : Nat
  created_at : Option Str
  updated_at : Option Str
  priority : Str
  status : Str
deriving DecidableEq

/-- A StoryBoard comment row (writer.py lines 267-270). -/
structure CommentRec where
  id : Nat
  content : Str
  created_at : Str
deriving DecidableEq

/-- A StoryBoard timeline-event row.  `event_info` carries the task id and
task title of the JSON payload of writer.py lines 248-251 (the JSON text
encoding itself is irrelevant to the claims). -/
structure EventRec where
  id : Nat
  story_id : Nat
  author_id : Nat
  event_type : Str
  created_at : Option Str
  event_info : Option (Nat × Str)
  comment_id : Option Nat
deriving DecidableEq

/-- The persistent store: one list per entity kind, in insertion order,
plus a counter supplying fresh primary keys for rows created without an
explicit id. -/
structure Store where
  stories : List StoryRec
  tasks : List TaskRec
  events : List EventRec
  comments : List CommentRec
  tags : List TagRec
  users : List UserRec
  projects : List ProjectRec
  nextId : Nat
deriving DecidableEq

/-! ## Persistent store API

Modelled from the spec: the database access layer
(`storyboard/db/api`, not under `src/`) provides `get_by_id`,
`get_by_name`, `create`, `update` and filtered/counted queries over
TimelineEvent/Task by story id and event type (spec section 6), all
synchronous, returning the created/updated entity or null.
-/

/-- The story rows the writer queries for: those keyed by the given id. -/
def isStoryFor (i : Nat) (s : StoryRec) : Bool := s.id == i

/-- The task rows the writer queries for: those referencing the given story. -/
def isTaskFor (sid : Nat) (t : TaskRec) : Bool := t.story_id == sid

/-- The event rows the writer queries for: those of the given story and
event type. -/
def isEventOf (sid : Nat) (ty : Str) (e : EventRec) : Bool :=
  e.story_id == sid && e.event_type == ty

/-- Modelled from the spec: `db_api.entity_get(Story, id)`. -/
def entity_get_story (st : Store) (i : Nat) : Option StoryRec :=
  st.stories.find? (isStoryFor i)

/-- Modelled from the spec: `db_api.entity_create(Story, values)` with an
explicit primary key in the values. -/
def entity_create_story (st : Store) (vals : StoryRec) : StoryRec × Store :=
  (vals, { st with stories := st.stories ++ [vals] })

/-- Modelled from the spec: `db_api.entity_update(Story, id, values)`
replaces the fields of the row with the given id. -/
def entity_update_story (st : Store) (i : Nat) (vals : StoryRec) : StoryRec × Store :=
  (vals, { st with stories := st.stories.map (fun s => if s.id == i then vals else s) })

/-- Modelled from the spec: `model_query(Task).filter(story_id == sid).first()`. -/
def first_task_for_story (st : Store) (sid : Nat) : Option TaskRec :=
  st.tasks.find? (isTaskFor sid)

/-- Modelled from the spec: `db_api.entity_create(Task, values)`; the store
assigns a fresh primary key. -/
def entity_create_task (st : Store) (t0 : TaskRec) : TaskRec × Store :=
  let t := { t0 with id := st.nextId }
  (t, { st with tasks := st.tasks ++ [t], nextId := st.nextId + 1 })

/-- Modelled from the spec:
`model_query(TimeLineEvent).filter(story_id == sid).filter(event_type == ty).first()`. -/
def first_event (st : Store) (sid : Nat) (ty : Str) : Option EventRec :=
  st.events.find? (isEventOf sid ty)

/-- Modelled from the spec:
`model_query(TimeLineEvent).filter(story_id == sid).filter(event_type == ty).count()`. -/
def count_events (st : Store) (sid : Nat) (ty : Str) : Nat :=
  st.events.countP (isEventOf sid ty)

/-- Modelled from the spec: `db_api.entity_create(TimeLineEvent, values)`;
the store assigns a fresh primary key. -/
def event_create (st : Store) (e0 : EventRec) : EventRec × Store :=
  let e := { e0 with id := st.nextId }
  (e, { st with events := st.events ++ [e], nextId := st.nextId + 1 })

/-- Modelled from the spec: `comments_api.comment_create(values)`; the
store assigns a fresh primary key. -/
def comment_create (st : Store) (c0 : CommentRec) : CommentRec × Store :=
  let c := { c0 with id := st.nextId }
  (c, { st with comments := st.comments ++ [c], nextId := st.nextId + 1 })

/-- Modelled from the spec: `tags_api.tag_get_by_name(name)`. -/
def tag_get_by_name (st : Store) (name : Str) : Option TagRec :=
  st.tags.find? (fun t => t.name == name)

/-- Modelled from the spec: `tags_api.tag_create(values)`; the store
assigns a fresh primary key. -/
def tag_create (st : Store) (name : Str) : TagRec × Store :=
  let t : TagRec := { id := st.nextId, name := name }
  (t, { st with tags := st.tags ++ [t], nextId := st.nextId + 1 })

/-- Modelled from the spec: `users_api.user_get_by_openid(openid)`. -/
def user_get_by_openid (st : Store) (oid : Str) : Option UserRec :=
  st.users.find? (fun u => u.openid == oid)

/-- Modelled from the spec: `users_api.user_create(values)`; the store
assigns a fresh primary key. -/
def user_create (st : Store) (u0 : UserRec) : UserRec × Store :=
  let u := { u0 with id := st.nextId }
  (u, { st with users := st.users ++ [u], nextId := st.nextId + 1 })

/-- Modelled from the spec: `projects_api.project_get_by_name(name)`. -/
def project_get_by_name (st : Store) (name : Str) : Option ProjectRec :=
  st.projects.find? (fun p => p.name == name)

/-! ## Launchpad records consumed by the writer -/

/-- A Launchpad user record as the writer reads it. -/
structure LpUser where
  name : Str
  display_name : Str
  web_link : Str
deriving DecidableEq

/-- A Launchpad bug message; `date_created` carries the already-formatted
timestamp string (the `strftime` formatting is irrelevant to the claims). -/
structure LpMessage where
  owner : Option LpUser
  content : Str
  date_created : Str
deriving DecidableEq

/-- A Launchpad bug record.  `date_created` and `date_last_updated` are
`none` when the attribute is absent (`hasattr` in the source); `tags` is
`none` when the attribute is absent. -/
structure LpBug where
  self_link : Str
  title : Str
  description : Str
  date_created : Option Str
  date_last_updated : Option Str
  tags : Option (List Str)
  messages : List LpMessage
deriving DecidableEq

/-! ## The writer -/

/-- The in-run state of `LaunchpadWriter`: the three caches
(username-link to openid, openid to user entity, tag name to tag entity)
and the target project. -/
structure LaunchpadWriter where
  openid_map : List (Str × Str)
  user_map : List (Str × UserRec)
  tag_map : List (Str × TagRec)
  project : ProjectRec
deriving DecidableEq

/-- `LaunchpadWriter.__init__` (writer.py lines 35-51): empty caches, then
resolve the target project by name; `sys.exit(1)` when the project is
missing terminates the whole run and is modelled as `none`. -/
def LaunchpadWriter.init (st : Store) (project_name : Str) : Option LaunchpadWriter :=
  match project_get_by_name st project_name with
  | none => none
  | some p => some { openid_map := [], user_map := [], tag_map := [], project := p }

/-- `LaunchpadWriter.build_tag` (writer.py lines 66-88): serve from the
in-run cache; on a miss query the store by name, creating the tag when
absent, and populate the cache. -/
def build_tag (w : LaunchpadWriter) (st : Store) (tag_name : Str) :
    TagRec × LaunchpadWriter × Store :=
  match List.lookup tag_name w.tag_map with
  | some t => (t, w, st)
  | none =>
    match tag_get_by_name st tag_name with
    | some t => (t, { w with tag_map := (tag_name, t) :: w.tag_map }, st)
    | none =>
      let p := tag_create st tag_name
      (p.1, { w with tag_map := (tag_name, p.1) :: w.tag_map }, p.2)

/-- Helper of `write_tags`: resolve each tag name in order, threading the
writer and the store. -/
def build_tags_list (w : LaunchpadWriter) (st : Store) :
    List Str → List TagRec × LaunchpadWriter × Store
  | [] => ([], w, st)
  | n :: rest =>
    let p := build_tag w st n
    let q := build_tags_list p.2.1 p.2.2 rest
    (p.1 :: q.1, q.2.1, q.2.2)

/-- `LaunchpadWriter.write_tags` (writer.py lines 53-64): resolve every tag
of the bug; a missing or empty (falsy) tags attribute yields no tags. -/
def write_tags (w : LaunchpadWriter) (st : Store) (bug : LpBug) :
    List TagRec × LaunchpadWriter × Store :=
  match bug.tags with
  | none => ([], w, st)
  | some [] => ([], w, st)
  | some names => build_tags_list w st names

/-- The placeholder openid the writer synthesizes on a discovery failure
(writer.py lines 118-119). -/
def invalidOpenid (username : Str) : Str :=
  "http://example.com/invalid/~".toList ++ username

/-- `LaunchpadWriter.write_user` (writer.py lines 90-142).  `discover`
models the OpenID consumer: it maps a user profile link to its openid, or
fails (`DiscoveryFailure`), in which case the writer records the
deterministic placeholder openid.  A null Launchpad user passes through as
null.  The resolved openid is cached by profile link; the user entity,
fetched from the store or created with a temporary email address, is
cached by openid. -/
def write_user (discover : Str → Option Str) (w : LaunchpadWriter) (st : Store)
    (lp_user : Option LpUser) : Option UserRec × LaunchpadWriter × Store :=
  match lp_user with
  | none => (none, w, st)
  | some u =>
    let username := u.name
    let display_name := u.display_name
    let user_link := u.web_link
    let openid :=
      match List.lookup user_link w.openid_map with
      | some oid => oid
      | none =>
        match discover user_link with
        | some oid => oid
        | none => invalidOpenid username
    let w1 :=
      if (List.lookup user_link w.openid_map).isSome then w
      else { w with openid_map := (user_link, openid) :: w.openid_map }
    match List.lookup openid w1.user_map with
    | some user => (some user, w1, st)
    | none =>
      match user_get_by_openid st openid with
      | some user => (some user, { w1 with user_map := (openid, user) :: w1.user_map }, st)
      | none =>
        let p := user_create st
          { id := 0, username := username, openid := openid,
            full_name := display_name, email := username ++ "@example.com".toList }
        (some p.1, { w1 with user_map := (openid, p.1) :: w1.user_map }, p.2)

/-- The comment-replay loop of `write_bug` (writer.py lines 260-278),
applied to the messages from index `current_count` on (here passed as the
already-dropped suffix): resolve the message owner, create the comment,
then create the user-comment event.  When the message owner is null,
`write_user` returns null and the attribute access `message_owner.id`
raises; the raised exception is modelled as `none`. -/
def replay_messages (discover : Str → Option Str) (launchpad_id : Nat)
    (w : LaunchpadWriter) (st : Store) :
    List LpMessage → Option (LaunchpadWriter × Store)
  | [] => some (w, st)
  | message :: rest =>
    let r := write_user discover w st message.owner
    let p := comment_create r.2.2
      { id := 0, content := message.content, created_at := message.date_created }
    match r.1 with
    | none => none
    | some message_owner =>
      let st2 := (event_create p.2
        { id := 0, story_id := launchpad_id, author_id := message_owner.id,
          event_type := USER_COMMENT, created_at := some message.date_created,
          event_info := none, comment_id := some p.1.id }).2
      replay_messages discover launchpad_id r.2.1 st2 rest

/-- Title normalization of `write_bug` (writer.py lines 179-180): a title
longer than 100 characters is truncated to its first 97 characters plus an
ellipsis. -/
def normTitle (t : Str) : Str :=
  if t.length > 100 then t.take 97 ++ "...".toList else t

/-- Description normalization of `write_bug` (writer.py lines 179-181):
when the title overflows, the untruncated title is prepended to the
description, separated by a blank line. -/
def normDescription (t d : Str) : Str :=
  if t.length > 100 then t ++ "\n\n".toList ++ d else d

/-- The story values dict of `write_bug` (writer.py lines 184-193). -/
def storyValsOf (launchpad_id : Nat) (owner : UserRec) (tags : List TagRec)
    (bug : LpBug) : StoryRec :=
  { id := launchpad_id, description := normDescription bug.title bug.description,
    created_at := bug.date_created, creator := owner, is_bug := true,
    title := normTitle bug.title, updated_at := bug.date_last_updated, tags := tags }

/-- The task values dict of `write_bug` (writer.py lines 208-217); the
primary key is assigned by the store at creation. -/
def taskValsOf (launchpad_id : Nat) (project_id : Nat) (assignee : Option UserRec)
    (priority : Str) (status : Str) (bug : LpBug) : TaskRec :=
  { id := 0, title := normTitle bug.title, assignee_id := assignee.map UserRec.id,
    project_id := project_id, story_id := launchpad_id,
    created_at := bug.date_created, updated_at := bug.date_last_updated,
    priority := priority, status := status }

/-- The story-created event values dict of `write_bug` (writer.py lines
229-234). -/
def scEventValsOf (launchpad_id : Nat) (owner : UserRec) (bug : LpBug) : EventRec :=
  { id := 0, story_id := launchpad_id, author_id := owner.id,
    event_type := STORY_CREATED, created_at := bug.date_created,
    event_info := none, comment_id := none }

/-- The task-created event values dict of `write_bug` (writer.py lines
243-252), with its payload referencing the created or found task. -/
def tcEventValsOf (launchpad_id : Nat) (owner : UserRec) (bug : LpBug)
    (task_id : Nat) : EventRec :=
  { id := 0, story_id := launchpad_id, author_id := owner.id,
    event_type := TASK_CREATED, created_at := bug.date_created,
    event_info := some (task_id, normTitle bug.title), comment_id := none }

/-- The story upsert of `write_bug` (writer.py lines 194-198): create the
story when no row with its id exists, else update that row in place. -/
def upsert_story (st : Store) (launchpad_id : Nat) (vals : StoryRec) :
    StoryRec × Store :=
  match entity_get_story st launchpad_id with
  | none => entity_create_story st vals
  | some _ => entity_update_story st launchpad_id vals

/-- The task duplicate check of `write_bug` (writer.py lines 204-219):
create the task only when the story has none yet. -/
def ensure_task (st : Store) (launchpad_id : Nat) (t0 : TaskRec) :
    TaskRec × Store :=
  match first_task_for_story st launchpad_id with
  | none => entity_create_task st t0
  | some existing_task => (existing_task, st)

/-- The creation-event duplicate check of `write_bug` (writer.py lines
224-252): create the event only when the story has no event of that type
yet. -/
def ensure_event (st : Store) (launchpad_id : Nat) (ty : Str) (e0 : EventRec) :
    Store :=
  match first_event st launchpad_id ty with
  | none => (event_create st e0).2
  | some _ => st

/-- The state of the store after the four upsert stages of `write_bug`
(writer.py lines 184-252): story upsert, task duplicate check,
story-created event duplicate check, task-created event duplicate check,
in source order. -/
def upsertedStore (w : LaunchpadWriter) (st : Store) (owner : UserRec)
    (assignee : Option UserRec) (priority : Str) (status : Str)
    (tags : List TagRec) (bug : LpBug) (launchpad_id : Nat) : Store :=
  let p1 := upsert_story st launchpad_id (storyValsOf launchpad_id owner tags bug)
  let p2 := ensure_task p1.2 launchpad_id
    (taskValsOf launchpad_id w.project.id assignee priority status bug)
  let st3 := ensure_event p2.2 launchpad_id STORY_CREATED
    (scEventValsOf launchpad_id owner bug)
  ensure_event st3 launchpad_id TASK_CREATED
    (tcEventValsOf launchpad_id owner bug p2.1.id)

/-- `LaunchpadWriter.write_bug` (writer.py lines 144-280): extract the
launchpad id from the self link (on failure print an error and return
null without writing); normalize title and description; upsert the story
keyed by the launchpad id; create the task, the story-created event and
the task-created event only when absent (`upsertedStore`); then replay the
messages beyond the number of user-comment events already stored.  The
outer `Option` is `none` when the replay raises; the inner `Option` is the
returned story (null on the early return).  The returned story is the row
returned by the create or update call of the story upsert. -/
def write_bug (discover : Str → Option Str) (w : LaunchpadWriter) (st : Store)
    (owner : UserRec) (assignee : Option UserRec) (priority : Str) (status : Str)
    (tags : List TagRec) (bug : LpBug) :
    Option (Option StoryRec × LaunchpadWriter × Store) :=
  match extractLaunchpadId bug.self_link with
  | none => some (none, w, st)
  | some launchpad_id =>
    let story := (upsert_story st launchpad_id (storyValsOf launchpad_id owner tags bug)).1
    let st4 := upsertedStore w st owner assignee priority status tags bug launchpad_id
    let current_count := count_events st4 launchpad_id USER_COMMENT
    (replay_messages discover launchpad_id w st4 (bug.messages.drop current_count)).map
      (fun q => (some story, q.1, q.2))

/-! ## The timeline-event resolution step of the REST model layer -/

/-- A `TimeLineEvent` DTO as `wmodels.py` manipulates it. -/
structure WEvent where
  event_type : Str
  event_info : Option Str
  story_id : Nat
  author_id : Nat
  comment_id : Option Nat
  comment : Option CommentRec
deriving DecidableEq

/-- Modelled from the spec: the `storyboard/common/event_resolvers` module
(not under `src/`) supplies one formatter per enumerated event kind; they
are kept abstract as parameters, since the claims only concern the
dispatch. -/
structure EventResolvers where
  story_created : WEvent → WEvent
  story_details_changed : WEvent → WEvent
  user_comment : WEvent → WEvent
  task_created : WEvent → WEvent
  task_status_changed : WEvent → WEvent
  task_priority_changed : WEvent → WEvent
  task_assignee_changed : WEvent → WEvent
  task_details_changed : WEvent → WEvent
  task_deleted : WEvent → WEvent

/-- `TimeLineEvent._resolve_info` (wmodels.py lines 246-273): dispatch on
`event_type` over the nine enumerated kinds.  The chain of branches has no
default case, so on any other `event_type` the Python function falls
through and implicitly returns `None`, modelled as `none`. -/
def resolve_info (rs : EventResolvers) (event : WEvent) : Option WEvent :=
  if event.event_type = STORY_CREATED then some (rs.story_created event)
  else if event.event_type = STORY_DETAILS_CHANGED then some (rs.story_details_changed event)
  else if event.event_type = USER_COMMENT then some (rs.user_comment event)
  else if event.event_type = TASK_CREATED then some (rs.task_created event)
  else if event.event_type = TASK_STATUS_CHANGED then some (rs.task_status_changed event)
  else if event.event_type = TASK_PRIORITY_CHANGED then some (rs.task_priority_changed event)
  else if event.event_type = TASK_ASSIGNEE_CHANGED then some (rs.task_assignee_changed event)
  else if event.event_type = TASK_DETAILS_CHANGED then some (rs.task_details_changed event)
  else if event.event_type = TASK_DELETED then some (rs.task_deleted event)
  else none

/-- `TimeLineEvent.resolve_event_values` (wmodels.py lines 236-244): when
`comment_id` is truthy, attach the comment fetched through `comment_get`
(a store lookup, passed as a parameter), then return the result of
`_resolve_info` on the event. -/
def resolve_event_values (comment_get : Nat → Option CommentRec)
    (rs : EventResolvers) (event : WEvent) : Option WEvent :=
  let event1 :=
    match event.comment_id with
    | some cid => if cid ≠ 0 then { event with comment := comment_get cid } else event
    | none => event
  resolve_info rs event1


/-! ## Concrete fixtures used to evaluate the development on closed inputs -/

/-- A discovery function that always fails (`DiscoveryFailure` on every
profile link). -/
def dNone : Str → Option Str := fun _ => none

def sampleProject : ProjectRec := { id := 1, name := "storyboard".toList }

def freshWriter : LaunchpadWriter :=
  { openid_map := [], user_map := [], tag_map := [], project := sampleProject }

def baseStore : Store :=
  { stories := [], tasks := [], events := [], comments := [], tags := [],
    users := [], projects := [sampleProject], nextId := 100 }

def aliceName : Str := "alice".toList

def lpAlice : LpUser :=
  { name := aliceName, display_name := "Alice".toList,
    web_link := "https://launchpad.net/~alice".toList }

def goodMessage : LpMessage :=
  { owner := some lpAlice, content := "hello".toList,
    date_created := "2014-01-02 03:04:05".toList }

def badMessage : LpMessage :=
  { owner := none, content := "anon".toList,
    date_created := "2014-01-02 03:04:05".toList }

def goodBug : LpBug :=
  { self_link := "https://api.launchpad.net/1.0/bugs/42".toList,
    title := "crash on startup".toList, description := "it crashes".toList,
    date_created := none, date_last_updated := none, tags := none,
    messages := [goodMessage] }

def badLinkBug : LpBug :=
  { goodBug with self_link := "https://api.launchpad.net/1.0/bugs/new".toList }

def nullOwnerBug : LpBug := { goodBug with messages := [badMessage] }

def longTitleBug : LpBug :=
  { goodBug with title := List.replicate 101 'x', messages := [] }

def sampleOwner : UserRec :=
  { id := 7, username := "owner".toList, openid := "http://openid.example/owner".toList,
    full_name := "Owner".toList, email := "owner@example.com".toList }

def mediumPr : Str := "medium".toList

def todoSt : Str := "todo".toList

def persistedTag : TagRec := { id := 3, name := "ui".toList }

def tagStore : Store := { baseStore with tags := [persistedTag] }

def placeholderUser : UserRec :=
  { id := 9, username := aliceName, openid := invalidOpenid aliceName,
    full_name := "Alice".toList, email := "alice@example.com".toList }

def userStore : Store := { baseStore with users := [placeholderUser] }

/-- First concrete import run of `goodBug` into the empty store. -/
def run1 : Option (Option StoryRec × LaunchpadWriter × Store) :=
  write_bug dNone freshWriter baseStore sampleOwner none mediumPr todoSt [] goodBug

def run1res : Option StoryRec × LaunchpadWriter × Store :=
  run1.getD (none, freshWriter, baseStore)

def story1fix : StoryRec := run1res.1.getD (storyValsOf 0 sampleOwner [] goodBug)

def w1fix : LaunchpadWriter := run1res.2.1

def st1fix : Store := run1res.2.2

/-- Second concrete import run of `goodBug`, replaying over the state left
by the first run. -/
def run2 : Option (Option StoryRec × LaunchpadWriter × Store) :=
  write_bug dNone w1fix st1fix sampleOwner none mediumPr todoSt [] goodBug

def run2res : Option StoryRec × LaunchpadWriter × Store :=
  run2.getD (none, freshWriter, baseStore)

def story2fix : StoryRec := run2res.1.getD (storyValsOf 0 sampleOwner [] goodBug)

def w2fix : LaunchpadWriter := run2res.2.1

def st2fix : Store := run2res.2.2

/-- A timeline event whose type is none of the nine enumerated kinds. -/
def mysteryEvent : WEvent :=
  { event_type := "mystery".toList, event_info := none, story_id := 1,
    author_id := 1, comment_id := none, comment := none }

/-- Identity formatters: the dispatch under scrutiny never reaches them on
an unknown event type, so their behavior is irrelevant. -/
def idResolvers : EventResolvers :=
  { story_created := id, story_details_changed := id, user_comment := id,
    task_created := id, task_status_changed := id, task_priority_changed := id,
    task_assignee_changed := id, task_details_changed := id, task_deleted := id }

def noCommentLookup : Nat → Option CommentRec := fun _ => none

/-- Concrete import run of the long-titled bug into the empty store. -/
def runLong : Option (Option StoryRec × LaunchpadWriter × Store) :=
  write_bug dNone freshWriter baseStore sampleOwner none mediumPr todoSt [] longTitleBug

def runLongRes : Option StoryRec × LaunchpadWriter × Store :=
  runLong.getD (none, freshWriter, baseStore)

def storyLong : StoryRec := runLongRes.1.getD (storyValsOf 0 sampleOwner [] goodBug)

def wLong : LaunchpadWriter := runLongRes.2.1

def stLong : Store := runLongRes.2.2

def secondMessage : LpMessage :=
  { owner := some lpAlice, content := "again".toList,
    date_created := "2014-01-03 00:00:00".toList }

def twoMsgBug : LpBug := { goodBug with messages := [goodMessage, secondMessage] }

/-- A comment and its user-comment event as a previously interrupted run
would have left them for message 0 of the bug. -/
def existingComment : CommentRec :=
  { id := 50, content := "hello".toList, created_at := goodMessage.date_created }

def existingUCEvent : EventRec :=
  { id := 51, story_id := 42, author_id := 9, event_type := USER_COMMENT,
    created_at := some goodMessage.date_created, event_info := none,
    comment_id := some 50 }

def resumeStore : Store :=
  { baseStore with comments := [existingComment], events := [existingUCEvent] }

/-- Concrete resumed import run: one comment already recorded, two
messages reported. -/
def runResume : Option (Option StoryRec × LaunchpadWriter × Store) :=
  write_bug dNone freshWriter resumeStore sampleOwner none mediumPr todoSt [] twoMsgBug

def runResumeRes : Option StoryRec × LaunchpadWriter × Store :=
  runResume.getD (none, freshWriter, baseStore)

def storyResume : StoryRec := runResumeRes.1.getD (storyValsOf 0 sampleOwner [] goodBug)

def wResume : LaunchpadWriter := runResumeRes.2.1

def stResume : Store := runResumeRes.2.2

/-! ## Frame and characterization lemmas for the upsert stages -/

theorem upsert_story_fst (st : Store) (lid : Nat) (vals : StoryRec) :
    (upsert_story st lid vals).1 = vals := by
  unfold upsert_story entity_create_story entity_update_story
  split <;> rfl

theorem upsert_story_tasks (st : Store) (lid : Nat) (vals : StoryRec) :
    (upsert_story st lid vals).2.tasks = st.tasks := by
  unfold upsert_story entity_create_story entity_update_story
  split <;> rfl

theorem upsert_story_events (st : Store) (lid : Nat) (vals : StoryRec) :
    (upsert_story st lid vals).2.events = st.events := by
  unfold upsert_story entity_create_story entity_update_story
  split <;> rfl

theorem upsert_story_comments (st : Store) (lid : Nat) (vals : StoryRec) :
    (upsert_story st lid vals).2.comments = st.comments := by
  unfold upsert_story entity_create_story entity_update_story
  split <;> rfl

theorem upsert_story_tags (st : Store) (lid : Nat) (vals : StoryRec) :
    (upsert_story st lid vals).2.tags = st.tags := by
  unfold upsert_story entity_create_story entity_update_story
  split <;> rfl

theorem upsert_story_users (st : Store) (lid : Nat) (vals : StoryRec) :
    (upsert_story st lid vals).2.users = st.users := by
  unfold upsert_story entity_create_story entity_update_story
  split <;> rfl

theorem upsert_story_stories_create (st : Store) (lid : Nat) (vals : StoryRec)
    (h : entity_get_story st lid = none) :
    (upsert_story st lid vals).2.stories = st.stories ++ [vals] := by
  unfold upsert_story
  rw [h]
  rfl

theorem upsert_story_stories_update (st : Store) (lid : Nat) (vals : StoryRec)
    (s0 : StoryRec) (h : entity_get_story st lid = some s0) :
    (upsert_story st lid vals).2.stories
      = st.stories.map (fun s => if s.id == lid then vals else s) := by
  unfold upsert_story
  rw [h]
  rfl

theorem ensure_task_stories (st : Store) (lid : Nat) (t0 : TaskRec) :
    (ensure_task st lid t0).2.stories = st.stories := by
  unfold ensure_task entity_create_task
  split <;> rfl

theorem ensure_task_events (st : Store) (lid : Nat) (t0 : TaskRec) :
    (ensure_task st lid t0).2.events = st.events := by
  unfold ensure_task entity_create_task
  split <;> rfl

theorem ensure_task_comments (st : Store) (lid : Nat) (t0 : TaskRec) :
    (ensure_task st lid t0).2.comments = st.comments := by
  unfold ensure_task entity_create_task
  split <;> rfl

theorem ensure_task_tags (st : Store) (lid : Nat) (t0 : TaskRec) :
    (ensure_task st lid t0).2.tags = st.tags := by
  unfold ensure_task entity_create_task
  split <;> rfl

theorem ensure_task_users (st : Store) (lid : Nat) (t0 : TaskRec) :
    (ensure_task st lid t0).2.users = st.users := by
  unfold ensure_task entity_create_task
  split <;> rfl

theorem ensure_task_create (st : Store) (lid : Nat) (t0 : TaskRec)
    (h : first_task_for_story st lid = none) :
    ensure_task st lid t0
      = ({ t0 with id := st.nextId },
         { st with tasks := st.tasks ++ [{ t0 with id := st.nextId }],
                   nextId := st.nextId + 1 }) := by
  unfold ensure_task
  rw [h]
  rfl

theorem ensure_task_existing (st : Store) (lid : Nat) (t0 : TaskRec)
    (t : TaskRec) (h : first_task_for_story st lid = some t) :
    ensure_task st lid t0 = (t, st) := by
  unfold ensure_task
  rw [h]

theorem ensure_event_stories (st : Store) (lid : Nat) (ty : Str) (e0 : EventRec) :
    (ensure_event st lid ty e0).stories = st.stories := by
  unfold ensure_event event_create
  split <;> rfl

theorem ensure_event_tasks (st : Store) (lid : Nat) (ty : Str) (e0 : EventRec) :
    (ensure_event st lid ty e0).tasks = st.tasks := by
  unfold ensure_event event_create
  split <;> rfl

theorem ensure_event_comments (st : Store) (lid : Nat) (ty : Str) (e0 : EventRec) :
    (ensure_event st lid ty e0).comments = st.comments := by
  unfold ensure_event event_create
  split <;> rfl

theorem ensure_event_tags (st : Store) (lid : Nat) (ty : Str) (e0 : EventRec) :
    (ensure_event st lid ty e0).tags = st.tags := by
  unfold ensure_event event_create
  split <;> rfl

theorem ensure_event_users (st : Store) (lid : Nat) (ty : Str) (e0 : EventRec) :
    (ensure_event st lid ty e0).users = st.users := by
  unfold ensure_event event_create
  split <;> rfl

theorem ensure_event_create (st : Store) (lid : Nat) (ty : Str) (e0 : EventRec)
    (h : first_event st lid ty = none) :
    ensure_event st lid ty e0
      = { st with events := st.events ++ [{ e0 with id := st.nextId }],
                  nextId := st.nextId + 1 } := by
  unfold ensure_event
  rw [h]
  rfl

theorem ensure_event_existing (st : Store) (lid : Nat) (ty : Str) (e0 : EventRec)
    (e : EventRec) (h : first_event st lid ty = some e) :
    ensure_event st lid ty e0 = st := by
  unfold ensure_event
  rw [h]
/-! ## Lemmas about `write_user` -/

theorem write_user_none_eq (d : Str → Option Str) (w : LaunchpadWriter) (st : Store) :
    write_user d w st none = (none, w, st) := rfl

theorem write_user_some_spec (d : Str → Option Str) (w : LaunchpadWriter)
    (st : Store) (u : LpUser) :
    ∃ user w' st',
      write_user d w st (some u) = (some user, w', st') ∧
      st'.stories = st.stories ∧ st'.tasks = st.tasks ∧ st'.events = st.events ∧
      st'.comments = st.comments ∧ st'.tags = st.tags ∧
      (∃ us, st'.users = st.users ++ us) := by
  simp only [write_user]
  cases hL : List.lookup u.web_link w.openid_map with
  | some oid =>
    simp only [hL, Option.isSome_some, if_true]
    cases hM : List.lookup oid w.user_map with
    | some user => exact ⟨user, _, _, rfl, rfl, rfl, rfl, rfl, rfl, [], by simp⟩
    | none =>
      simp only [hM]
      cases hG : user_get_by_openid st oid with
      | some user =>
        simp only [hG]
        exact ⟨user, _, _, rfl, rfl, rfl, rfl, rfl, rfl, [], by simp⟩
      | none =>
        simp only [hG]
        exact ⟨_, _, _, rfl, rfl, rfl, rfl, rfl, rfl, [_], rfl⟩
  | none =>
    simp only [hL, Option.isSome_none, Bool.false_eq_true, if_false]
    cases hD : d u.web_link with
    | some oid =>
      simp only [hD]
      cases hM : List.lookup oid w.user_map with
      | some user => exact ⟨user, _, _, rfl, rfl, rfl, rfl, rfl, rfl, [], by simp⟩
      | none =>
        simp only [hM]
        cases hG : user_get_by_openid st oid with
        | some user =>
          simp only [hG]
          exact ⟨user, _, _, rfl, rfl, rfl, rfl, rfl, rfl, [], by simp⟩
        | none =>
          simp only [hG]
          exact ⟨_, _, _, rfl, rfl, rfl, rfl, rfl, rfl, [_], rfl⟩
    | none =>
      simp only [hD]
      cases hM : List.lookup (invalidOpenid u.name) w.user_map with
      | some user => exact ⟨user, _, _, rfl, rfl, rfl, rfl, rfl, rfl, [], by simp⟩
      | none =>
        simp only [hM]
        cases hG : user_get_by_openid st (invalidOpenid u.name) with
        | some user =>
          simp only [hG]
          exact ⟨user, _, _, rfl, rfl, rfl, rfl, rfl, rfl, [], by simp⟩
        | none =>
          simp only [hG]
          exact ⟨_, _, _, rfl, rfl, rfl, rfl, rfl, rfl, [_], rfl⟩

/-! ## Lemmas about the comment replay loop -/

theorem write_user_frame (d : Str → Option Str) (w : LaunchpadWriter) (st : Store)
    (o : Option LpUser) :
    (write_user d w st o).2.2.stories = st.stories ∧
    (write_user d w st o).2.2.tasks = st.tasks ∧
    (write_user d w st o).2.2.events = st.events ∧
    (write_user d w st o).2.2.comments = st.comments ∧
    (write_user d w st o).2.2.tags = st.tags ∧
    ∃ us, (write_user d w st o).2.2.users = st.users ++ us := by
  cases o with
  | none => exact ⟨rfl, rfl, rfl, rfl, rfl, [], by simp [write_user]⟩
  | some u =>
    obtain ⟨user, w', st', heq, h1, h2, h3, h4, h5, h6⟩ := write_user_some_spec d w st u
    rw [heq]
    exact ⟨h1, h2, h3, h4, h5, h6⟩

theorem replay_messages_some_spec (d : Str → Option Str) (lid : Nat) :
    ∀ (ms : List LpMessage) (w : LaunchpadWriter) (st : Store)
      (w' : LaunchpadWriter) (st' : Store),
    replay_messages d lid w st ms = some (w', st') →
    ∃ cs es,
      st'.comments = st.comments ++ cs ∧
      st'.events = st.events ++ es ∧
      st'.stories = st.stories ∧
      st'.tasks = st.tasks ∧
      st'.tags = st.tags ∧
      cs.map CommentRec.content = ms.map LpMessage.content ∧
      cs.map CommentRec.created_at = ms.map LpMessage.date_created ∧
      es.map EventRec.comment_id = cs.map (fun c => some c.id) ∧
      es.map EventRec.created_at = ms.map (fun m => some m.date_created) ∧
      es.length = ms.length ∧
      (∀ e ∈ es, e.story_id = lid ∧ e.event_type = USER_COMMENT) := by
  intro ms
  induction ms with
  | nil =>
    intro w st w' st' h
    simp only [replay_messages, Option.some.injEq, Prod.mk.injEq] at h
    obtain ⟨-, rfl⟩ := h
    exact ⟨[], [], by simp, by simp, rfl, rfl, rfl, rfl, rfl, rfl, rfl, rfl, by simp⟩
  | cons m rest ih =>
    intro w st w' st' h
    simp only [replay_messages] at h
    cases hwu : (write_user d w st m.owner).1 with
    | none => rw [hwu] at h; exact absurd h (by simp)
    | some mo =>
      rw [hwu] at h
      obtain ⟨hfs, hft, hfe, hfc, hftg, us, hfu⟩ := write_user_frame d w st m.owner
      obtain ⟨cs, es, hc, he, hs, ht, htg, mc, mca, mec, mecr, hlen, hall⟩ :=
        ih _ _ _ _ h
      simp only [comment_create, event_create] at hc he hs ht htg
      refine ⟨⟨(write_user d w st m.owner).2.2.nextId, m.content, m.date_created⟩ :: cs,
        ⟨(write_user d w st m.owner).2.2.nextId + 1, lid, mo.id, USER_COMMENT,
          some m.date_created, none,
          some (write_user d w st m.owner).2.2.nextId⟩ :: es, ?_, ?_, ?_, ?_, ?_, ?_, ?_, ?_, ?_, ?_, ?_⟩
      · rw [hc, hfc]; simp
      · rw [he, hfe]; simp
      · rw [hs, hfs]
      · rw [ht, hft]
      · rw [htg, hftg]
      · simpa using mc
      · simpa using mca
      · simpa using mec
      · simpa using mecr
      · simpa using hlen
      · intro e hE
        rcases List.mem_cons.mp hE with rfl | hE2
        · exact ⟨rfl, rfl⟩
        · exact hall e hE2

theorem replay_messages_isSome (d : Str → Option Str) (lid : Nat) :
    ∀ (ms : List LpMessage) (w : LaunchpadWriter) (st : Store),
    (∀ m ∈ ms, m.owner.isSome = true) →
    (replay_messages d lid w st ms).isSome = true := by
  intro ms
  induction ms with
  | nil => intro w st _; simp [replay_messages]
  | cons m rest ih =>
    intro w st hOwn
    obtain ⟨u, hu⟩ := Option.isSome_iff_exists.mp (hOwn m (List.mem_cons_self m rest))
    obtain ⟨user, w', st', heq, -⟩ := write_user_some_spec d w st u
    simp only [replay_messages, hu, heq]
    exact ih _ _ (fun m' hm' => hOwn m' (List.mem_cons_of_mem m hm'))

theorem replay_messages_none_of_bad (d : Str → Option Str) (lid : Nat) :
    ∀ (ms : List LpMessage) (w : LaunchpadWriter) (st : Store),
    (∃ m ∈ ms, m.owner = none) →
    replay_messages d lid w st ms = none := by
  intro ms
  induction ms with
  | nil => intro w st h; simp at h
  | cons m rest ih =>
    intro w st h
    rcases h with ⟨mb, hmem, hbad⟩
    rcases List.mem_cons.mp hmem with rfl | hrest
    · simp only [replay_messages, hbad, write_user_none_eq]
    · cases hu : m.owner with
      | none => simp only [replay_messages, hu, write_user_none_eq]
      | some u =>
        obtain ⟨user, w', st', heq, -⟩ := write_user_some_spec d w st u
        simp only [replay_messages, hu, heq]
        exact ih _ _ ⟨mb, hrest, hbad⟩

/-! ## Characterization of the upsert stages of write_bug -/

theorem sc_beq_tc : (STORY_CREATED == TASK_CREATED) = false := by decide

theorem tc_beq_sc : (TASK_CREATED == STORY_CREATED) = false := by decide

theorem sc_beq_uc : (STORY_CREATED == USER_COMMENT) = false := by decide

theorem tc_beq_uc : (TASK_CREATED == USER_COMMENT) = false := by decide

theorem uc_beq_uc : (USER_COMMENT == USER_COMMENT) = true := by decide

theorem upsertedStore_comments (w : LaunchpadWriter) (st : Store) (owner : UserRec)
    (assignee : Option UserRec) (priority status : Str) (tags : List TagRec)
    (bug : LpBug) (lid : Nat) :
    (upsertedStore w st owner assignee priority status tags bug lid).comments
      = st.comments := by
  simp only [upsertedStore]
  rw [ensure_event_comments, ensure_event_comments, ensure_task_comments,
    upsert_story_comments]

theorem upsertedStore_tags (w : LaunchpadWriter) (st : Store) (owner : UserRec)
    (assignee : Option UserRec) (priority status : Str) (tags : List TagRec)
    (bug : LpBug) (lid : Nat) :
    (upsertedStore w st owner assignee priority status tags bug lid).tags
      = st.tags := by
  simp only [upsertedStore]
  rw [ensure_event_tags, ensure_event_tags, ensure_task_tags, upsert_story_tags]

theorem upsertedStore_users (w : LaunchpadWriter) (st : Store) (owner : UserRec)
    (assignee : Option UserRec) (priority status : Str) (tags : List TagRec)
    (bug : LpBug) (lid : Nat) :
    (upsertedStore w st owner assignee priority status tags bug lid).users
      = st.users := by
  simp only [upsertedStore]
  rw [ensure_event_users, ensure_event_users, ensure_task_users, upsert_story_users]

theorem upsertedStore_stories_create (w : LaunchpadWriter) (st : Store) (owner : UserRec)
    (assignee : Option UserRec) (priority status : Str) (tags : List TagRec)
    (bug : LpBug) (lid : Nat) (h : entity_get_story st lid = none) :
    (upsertedStore w st owner assignee priority status tags bug lid).stories
      = st.stories ++ [storyValsOf lid owner tags bug] := by
  simp only [upsertedStore]
  rw [ensure_event_stories, ensure_event_stories, ensure_task_stories,
    upsert_story_stories_create _ _ _ h]

theorem upsertedStore_stories_update (w : LaunchpadWriter) (st : Store) (owner : UserRec)
    (assignee : Option UserRec) (priority status : Str) (tags : List TagRec)
    (bug : LpBug) (lid : Nat) (s0 : StoryRec) (h : entity_get_story st lid = some s0) :
    (upsertedStore w st owner assignee priority status tags bug lid).stories
      = st.stories.map
          (fun s => if s.id == lid then storyValsOf lid owner tags bug else s) := by
  simp only [upsertedStore]
  rw [ensure_event_stories, ensure_event_stories, ensure_task_stories,
    upsert_story_stories_update _ _ _ _ h]

theorem upsertedStore_tasks_existing (w : LaunchpadWriter) (st : Store) (owner : UserRec)
    (assignee : Option UserRec) (priority status : Str) (tags : List TagRec)
    (bug : LpBug) (lid : Nat) (t0 : TaskRec) (h : first_task_for_story st lid = some t0) :
    (upsertedStore w st owner assignee priority status tags bug lid).tasks
      = st.tasks := by
  simp only [upsertedStore]
  rw [ensure_event_tasks, ensure_event_tasks]
  have hft : first_task_for_story
      (upsert_story st lid (storyValsOf lid owner tags bug)).2 lid = some t0 := by
    unfold first_task_for_story
    rw [upsert_story_tasks]
    exact h
  rw [ensure_task_existing _ _ _ _ hft, upsert_story_tasks]

theorem upsertedStore_tasks_create (w : LaunchpadWriter) (st : Store) (owner : UserRec)
    (assignee : Option UserRec) (priority status : Str) (tags : List TagRec)
    (bug : LpBug) (lid : Nat) (h : first_task_for_story st lid = none) :
    ∃ tsk, (upsertedStore w st owner assignee priority status tags bug lid).tasks
      = st.tasks ++ [tsk] ∧ tsk.story_id = lid := by
  simp only [upsertedStore]
  rw [ensure_event_tasks, ensure_event_tasks]
  have hft : first_task_for_story
      (upsert_story st lid (storyValsOf lid owner tags bug)).2 lid = none := by
    unfold first_task_for_story
    rw [upsert_story_tasks]
    exact h
  rw [ensure_task_create _ _ _ hft]
  exact ⟨{ taskValsOf lid w.project.id assignee priority status bug with
            id := (upsert_story st lid (storyValsOf lid owner tags bug)).2.nextId },
    by simp [upsert_story_tasks], rfl⟩

theorem ensure_event_events_spec (st : Store) (lid : Nat) (ty : Str) (e0 : EventRec) :
    ∃ ev, (ensure_event st lid ty e0).events = st.events ++ ev ∧
      (first_event st lid ty = none → ev = [{ e0 with id := st.nextId }]) ∧
      (∀ ex, first_event st lid ty = some ex → ev = []) := by
  cases h : first_event st lid ty with
  | none =>
    rw [ensure_event_create _ _ _ _ h]
    refine ⟨[{ e0 with id := st.nextId }], rfl, fun _ => rfl, ?_⟩
    intro ex hex
    cases hex
  | some ex =>
    rw [ensure_event_existing _ _ _ _ _ h]
    refine ⟨[], (List.append_nil st.events).symm, ?_, ?_⟩
    · intro hn
      cases hn
    · intro _ _
      rfl

theorem find?_append_none_right {p : EventRec → Bool} (evs extra : List EventRec)
    (h : ∀ e ∈ extra, p e = false) :
    (evs ++ extra).find? p = evs.find? p := by
  have hx : List.find? p extra = none :=
    List.find?_eq_none.mpr (fun x hxm => by simp [h x hxm])
  rw [List.find?_append, hx, Option.or_none]

theorem upsertedStore_events_spec (w : LaunchpadWriter) (st : Store) (owner : UserRec)
    (assignee : Option UserRec) (priority status : Str) (tags : List TagRec)
    (bug : LpBug) (lid : Nat) :
    ∃ pre,
      (upsertedStore w st owner assignee priority status tags bug lid).events
        = st.events ++ pre ∧
      (∀ e ∈ pre, e.story_id = lid ∧
        (e.event_type = STORY_CREATED ∨ e.event_type = TASK_CREATED)) ∧
      (first_event st lid STORY_CREATED = none →
        first_event st lid TASK_CREATED = none →
        ∃ e1 e2, pre = [e1, e2] ∧ e1.event_type = STORY_CREATED ∧
          e2.event_type = TASK_CREATED ∧ e1.story_id = lid ∧ e2.story_id = lid) ∧
      (∀ eSC eTC, first_event st lid STORY_CREATED = some eSC →
        first_event st lid TASK_CREATED = some eTC → pre = []) := by
  simp only [upsertedStore]
  set A := (upsert_story st lid (storyValsOf lid owner tags bug)).2 with hA
  set P := ensure_task A lid (taskValsOf lid w.project.id assignee priority status bug)
    with hP
  set C := ensure_event P.2 lid STORY_CREATED (scEventValsOf lid owner bug) with hC
  have hPev : P.2.events = st.events := by
    rw [hP, ensure_task_events, hA, upsert_story_events]
  obtain ⟨ev1, hev1, hev1n, hev1s⟩ :=
    ensure_event_events_spec P.2 lid STORY_CREATED (scEventValsOf lid owner bug)
  rw [← hC] at hev1
  obtain ⟨ev2, hev2, hev2n, hev2s⟩ :=
    ensure_event_events_spec C lid TASK_CREATED (tcEventValsOf lid owner bug P.1.id)
  have hfeSC_P : first_event P.2 lid STORY_CREATED = first_event st lid STORY_CREATED := by
    unfold first_event
    rw [hPev]
  cases hSC : first_event st lid STORY_CREATED with
  | none =>
    have hev1eq : ev1 = [{ scEventValsOf lid owner bug with id := P.2.nextId }] :=
      hev1n (by rw [hfeSC_P]; exact hSC)
    have hfeTC_C : first_event C lid TASK_CREATED = first_event st lid TASK_CREATED := by
      unfold first_event
      rw [hev1, hPev, hev1eq]
      exact find?_append_none_right _ _ (fun e he => by
        rw [List.mem_singleton] at he
        subst he
        simp [isEventOf, scEventValsOf, sc_beq_tc])
    cases hTC : first_event st lid TASK_CREATED with
    | none =>
      have hev2eq : ev2 = [{ tcEventValsOf lid owner bug P.1.id with id := C.nextId }] :=
        hev2n (by rw [hfeTC_C]; exact hTC)
      refine ⟨ev1 ++ ev2, ?_, ?_, ?_, ?_⟩
      · rw [hev2, hev1, hPev, List.append_assoc]
      · intro e he
        rcases List.mem_append.mp he with h1 | h2
        · rw [hev1eq, List.mem_singleton] at h1
          subst h1
          exact ⟨rfl, Or.inl rfl⟩
        · rw [hev2eq, List.mem_singleton] at h2
          subst h2
          exact ⟨rfl, Or.inr rfl⟩
      · intro _ _
        exact ⟨_, _, by rw [hev1eq, hev2eq]; rfl, rfl, rfl, rfl, rfl⟩
      · intro eSC eTC h1 h2
        cases h1
    | some eTC0 =>
      have hev2eq : ev2 = [] := hev2s eTC0 (by rw [hfeTC_C]; exact hTC)
      refine ⟨ev1, ?_, ?_, ?_, ?_⟩
      · rw [hev2, hev1, hPev, hev2eq, List.append_nil]
      · intro e he
        rw [hev1eq, List.mem_singleton] at he
        subst he
        exact ⟨rfl, Or.inl rfl⟩
      · intro _ h2
        cases h2
      · intro eSC eTC h1 h2
        cases h1
  | some eSC0 =>
    have hev1eq : ev1 = [] := hev1s eSC0 (by rw [hfeSC_P]; exact hSC)
    have hfeTC_C : first_event C lid TASK_CREATED = first_event st lid TASK_CREATED := by
      unfold first_event
      rw [hev1, hPev, hev1eq, List.append_nil]
    cases hTC : first_event st lid TASK_CREATED with
    | none =>
      have hev2eq : ev2 = [{ tcEventValsOf lid owner bug P.1.id with id := C.nextId }] :=
        hev2n (by rw [hfeTC_C]; exact hTC)
      refine ⟨ev2, ?_, ?_, ?_, ?_⟩
      · rw [hev2, hev1, hPev, hev1eq, List.append_nil]
      · intro e he
        rw [hev2eq, List.mem_singleton] at he
        subst he
        exact ⟨rfl, Or.inr rfl⟩
      · intro h1 _
        cases h1
      · intro eSC eTC h1 h2
        cases h2
    | some eTC0 =>
      have hev2eq : ev2 = [] := hev2s eTC0 (by rw [hfeTC_C]; exact hTC)
      refine ⟨[], ?_, ?_, ?_, ?_⟩
      · rw [hev2, hev1, hPev, hev1eq, hev2eq, List.append_nil, List.append_nil]
      · intro e he
        cases he
      · intro h1 _
        cases h1
      · intro _ _ _ _
        rfl

theorem upsertedStore_count_uc (w : LaunchpadWriter) (st : Store) (owner : UserRec)
    (assignee : Option UserRec) (priority status : Str) (tags : List TagRec)
    (bug : LpBug) (lid : Nat) :
    count_events (upsertedStore w st owner assignee priority status tags bug lid)
        lid USER_COMMENT
      = count_events st lid USER_COMMENT := by
  obtain ⟨pre, hev, hmem, -, -⟩ :=
    upsertedStore_events_spec w st owner assignee priority status tags bug lid
  unfold count_events
  rw [hev, List.countP_append]
  have hz : pre.countP (isEventOf lid USER_COMMENT) = 0 :=
    List.countP_eq_zero.mpr (fun e he => by
      rcases hmem e he with ⟨hs, ht | ht⟩ <;>
        simp [isEventOf, ht, sc_beq_uc, tc_beq_uc])
  rw [hz, Nat.add_zero]

theorem write_bug_eq_of_none (d : Str → Option Str) (w : LaunchpadWriter) (st : Store)
    (owner : UserRec) (assignee : Option UserRec) (priority status : Str)
    (tags : List TagRec) (bug : LpBug)
    (hId : extractLaunchpadId bug.self_link = none) :
    write_bug d w st owner assignee priority status tags bug = some (none, w, st) := by
  simp only [write_bug, hId]

theorem write_bug_eq_of_id (d : Str → Option Str) (w : LaunchpadWriter) (st : Store)
    (owner : UserRec) (assignee : Option UserRec) (priority status : Str)
    (tags : List TagRec) (bug : LpBug) (lid : Nat)
    (hId : extractLaunchpadId bug.self_link = some lid) :
    write_bug d w st owner assignee priority status tags bug
      = (replay_messages d lid w
          (upsertedStore w st owner assignee priority status tags bug lid)
          (bug.messages.drop
            (count_events (upsertedStore w st owner assignee priority status tags bug lid)
              lid USER_COMMENT))).map
          (fun q => (some (storyValsOf lid owner tags bug), q.1, q.2)) := by
  simp only [write_bug, hId, upsert_story_fst, upsertedStore]

/-! ## The claims -/

/-- Claim C4: for every bug record whose self-reference URL yields no
trailing-digit match, write_bug returns without creating or updating any
Story, Task, Comment, or TimelineEvent, and no exception is raised (the
result is `some`, not `none`), so the run continues with subsequent
bugs. -/
theorem claim4_bad_reference (d : Str → Option Str) (w : LaunchpadWriter) (st : Store)
    (owner : UserRec) (assignee : Option UserRec) (priority status : Str)
    (tags : List TagRec) (bug : LpBug)
    (hId : extractLaunchpadId bug.self_link = none) :
    write_bug d w st owner assignee priority status tags bug = some (none, w, st) :=
  write_bug_eq_of_none d w st owner assignee priority status tags bug hId

/-- Witness for C4 at a concrete bug whose self link ends in letters. -/
theorem claim4_witness :
    extractLaunchpadId badLinkBug.self_link = none ∧
    write_bug dNone freshWriter baseStore sampleOwner none mediumPr todoSt [] badLinkBug
      = some (none, freshWriter, baseStore) :=
  ⟨by decide,
   claim4_bad_reference dNone freshWriter baseStore sampleOwner none mediumPr todoSt []
     badLinkBug (by decide)⟩

/-- Claim C9: write_user applied to a null external user returns null and
leaves the writer caches and the store unchanged (no discovery, no store
query or creation is observable). -/
theorem claim9_null_user (d : Str → Option Str) (w : LaunchpadWriter) (st : Store) :
    write_user d w st none = (none, w, st) := rfl

/-- Claim C8: constructing the writer for a target project name with no
corresponding local Project terminates the run immediately (modelled as
`none`, before any bug is processed); when the project exists the writer
initializes with it and empty tag, user and openid caches. -/
theorem claim8_init_contract (st : Store) (project_name : Str) :
    (project_get_by_name st project_name = none →
      LaunchpadWriter.init st project_name = none) ∧
    (∀ p, project_get_by_name st project_name = some p →
      LaunchpadWriter.init st project_name
        = some { openid_map := [], user_map := [], tag_map := [], project := p }) := by
  constructor
  · intro h
    unfold LaunchpadWriter.init
    rw [h]
  · intro p h
    unfold LaunchpadWriter.init
    rw [h]

/-- Witness for C8: a store without the project aborts initialization, the
base store with the project yields the writer with empty caches. -/
theorem claim8_witness :
    LaunchpadWriter.init { baseStore with projects := [] } sampleProject.name = none ∧
    LaunchpadWriter.init baseStore sampleProject.name = some freshWriter :=
  ⟨(claim8_init_contract { baseStore with projects := [] } sampleProject.name).1 (by decide),
   (claim8_init_contract baseStore sampleProject.name).2 sampleProject (by decide)⟩

/-- Counterexample to C7 as stated: on an event whose type is none of the
nine enumerated kinds the resolution step does not return the event
unchanged (it returns `none`, the implicit Python `None` of the
fall-through dispatch). -/
theorem claim7_counterexample :
    resolve_event_values noCommentLookup idResolvers mysteryEvent ≠ some mysteryEvent := by
  decide

/-- Claim C7 (amended): for every TimelineEvent whose event_type is not one
of the nine enumerated kinds, the event resolution step returns null (the
dispatch has no default case and Python implicitly returns None), rather
than erroring or returning the event. -/
theorem claim7_unknown_event_type (cg : Nat → Option CommentRec)
    (rs : EventResolvers) (event : WEvent)
    (h : event.event_type ∉
      [STORY_CREATED, STORY_DETAILS_CHANGED, USER_COMMENT, TASK_CREATED,
       TASK_STATUS_CHANGED, TASK_PRIORITY_CHANGED, TASK_ASSIGNEE_CHANGED,
       TASK_DETAILS_CHANGED, TASK_DELETED]) :
    resolve_event_values cg rs event = none := by
  simp only [List.mem_cons, List.not_mem_nil, or_false, not_or] at h
  obtain ⟨h1, h2, h3, h4, h5, h6, h7, h8, h9⟩ := h
  unfold resolve_event_values resolve_info
  cases hc : event.comment_id with
  | none => simp [h1, h2, h3, h4, h5, h6, h7, h8, h9]
  | some cid =>
    by_cases hz : cid ≠ 0 <;> simp [hz, h1, h2, h3, h4, h5, h6, h7, h8, h9]

/-- Witness for the amended C7 at the concrete unknown-typed event. -/
theorem claim7_witness :
    resolve_event_values noCommentLookup idResolvers mysteryEvent = none :=
  claim7_unknown_event_type noCommentLookup idResolvers mysteryEvent (by decide)

/-- Claim C10: the comment replay of write_bug is total only when every
message beyond the already-imported count has a non-null owner: a null
owner among the replayed messages makes write_bug raise (modelled as
`none`) rather than skip the message or substitute a placeholder author;
with all owners present it does not raise. -/
theorem claim10_null_message_owner (d : Str → Option Str) (w : LaunchpadWriter)
    (st : Store) (owner : UserRec) (assignee : Option UserRec)
    (priority status : Str) (tags : List TagRec) (bug : LpBug) (lid : Nat)
    (hId : extractLaunchpadId bug.self_link = some lid) :
    ((∃ m ∈ bug.messages.drop (count_events st lid USER_COMMENT), m.owner = none) →
      write_bug d w st owner assignee priority status tags bug = none) ∧
    ((∀ m ∈ bug.messages.drop (count_events st lid USER_COMMENT), m.owner.isSome = true) →
      (write_bug d w st owner assignee priority status tags bug).isSome = true) := by
  rw [write_bug_eq_of_id d w st owner assignee priority status tags bug lid hId,
    upsertedStore_count_uc]
  constructor
  · intro hbad
    rw [replay_messages_none_of_bad d lid _ _ _ hbad]
    rfl
  · intro hgood
    have hsome := replay_messages_isSome d lid
      (bug.messages.drop (count_events st lid USER_COMMENT)) w
      (upsertedStore w st owner assignee priority status tags bug lid) hgood
    cases hrep : replay_messages d lid w
        (upsertedStore w st owner assignee priority status tags bug lid)
        (bug.messages.drop (count_events st lid USER_COMMENT)) with
    | none => rw [hrep] at hsome; cases hsome
    | some q => rfl

/-- Witness for C10: a bug whose only message has a null owner makes the
run raise; the same bug with an owned message does not. -/
theorem claim10_witness :
    write_bug dNone freshWriter baseStore sampleOwner none mediumPr todoSt []
        nullOwnerBug = none ∧
    (write_bug dNone freshWriter baseStore sampleOwner none mediumPr todoSt []
        goodBug).isSome = true :=
  ⟨(claim10_null_message_owner dNone freshWriter baseStore sampleOwner none mediumPr
      todoSt [] nullOwnerBug 42 (by decide)).1 (by decide),
   (claim10_null_message_owner dNone freshWriter baseStore sampleOwner none mediumPr
      todoSt [] goodBug 42 (by decide)).2 (by decide)⟩

/-- Claim C3: when write_bug succeeds, the stored story title is the
original title truncated to 97 characters plus an ellipsis when the title
exceeds 100 characters (so its length is at most 100), with the stored
description beginning with the original full title followed by the
original description; titles of at most 100 characters are stored
unchanged, as is the description. -/
theorem claim3_title_overflow (d : Str → Option Str) (w : LaunchpadWriter) (st : Store)
    (owner : UserRec) (assignee : Option UserRec) (priority status : Str)
    (tags : List TagRec) (bug : LpBug) (story : StoryRec) (w' : LaunchpadWriter)
    (st' : Store)
    (h1 : write_bug d w st owner assignee priority status tags bug
            = some (some story, w', st')) :
    (100 < bug.title.length →
       story.title = bug.title.take 97 ++ "...".toList ∧
       story.title.length ≤ 100 ∧
       story.description = bug.title ++ "\n\n".toList ++ bug.description) ∧
    (bug.title.length ≤ 100 →
       story.title = bug.title ∧ story.description = bug.description) ∧
    story ∈ st'.stories := by
  cases hId : extractLaunchpadId bug.self_link with
  | none =>
    rw [write_bug_eq_of_none d w st owner assignee priority status tags bug hId] at h1
    simp at h1
  | some lid =>
    rw [write_bug_eq_of_id d w st owner assignee priority status tags bug lid hId] at h1
    cases hrep : replay_messages d lid w
        (upsertedStore w st owner assignee priority status tags bug lid)
        (bug.messages.drop
          (count_events (upsertedStore w st owner assignee priority status tags bug lid)
            lid USER_COMMENT)) with
    | none => rw [hrep] at h1; simp at h1
    | some q =>
      rw [hrep] at h1
      simp only [Option.map_some, Option.map_some', Option.some.injEq,
        Prod.mk.injEq] at h1
      obtain ⟨hstory, hw, hst⟩ := h1
      have hstory' : story = storyValsOf lid owner tags bug := by
        cases hstory
        rfl
      subst hstory'
      obtain ⟨cs, es, hc, he, hs, ht, htg, -, -, -, -, -, -⟩ :=
        replay_messages_some_spec d lid _ _ _ q.1 q.2 (by rw [hrep])
      refine ⟨?_, ?_, ?_⟩
      · intro hlong
        refine ⟨?_, ?_, ?_⟩
        · show normTitle bug.title = bug.title.take 97 ++ "...".toList
          unfold normTitle
          rw [if_pos hlong]
        · show (normTitle bug.title).length ≤ 100
          unfold normTitle
          rw [if_pos hlong, List.length_append, List.length_take]
          have h97 : (97 : Nat) ≤ bug.title.length := by omega
          simp [Nat.min_eq_left h97]
        · show normDescription bug.title bug.description
            = bug.title ++ "\n\n".toList ++ bug.description
          unfold normDescription
          rw [if_pos hlong, List.append_assoc]
      · intro hshort
        constructor
        · show normTitle bug.title = bug.title
          unfold normTitle
          rw [if_neg (by omega)]
        · show normDescription bug.title bug.description = bug.description
          unfold normDescription
          rw [if_neg (by omega)]
      · rw [← hst, hs]
        cases hget : entity_get_story st lid with
        | none =>
          rw [upsertedStore_stories_create w st owner assignee priority status tags
            bug lid hget]
          exact List.mem_append_right _ (List.mem_singleton.mpr rfl)
        | some s0 =>
          rw [upsertedStore_stories_update w st owner assignee priority status tags
            bug lid s0 hget]
          have hmem : s0 ∈ st.stories := List.mem_of_find?_eq_some hget
          have hp : isStoryFor lid s0 = true := List.find?_some hget
          exact List.mem_map.mpr ⟨s0, hmem, by
            have : (s0.id == lid) = true := hp
            simp [this]⟩

/-- Witness for C3 at a concrete bug with a 101-character title. -/
theorem claim3_witness :
    100 < longTitleBug.title.length ∧
    storyLong.title = longTitleBug.title.take 97 ++ "...".toList ∧
    storyLong.title.length ≤ 100 ∧
    storyLong.description
      = longTitleBug.title ++ "\n\n".toList ++ longTitleBug.description ∧
    storyLong ∈ stLong.stories := by
  have h := claim3_title_overflow dNone freshWriter baseStore sampleOwner none mediumPr
    todoSt [] longTitleBug storyLong wLong stLong (by decide)
  have hl : 100 < longTitleBug.title.length := by decide
  exact ⟨hl, (h.1 hl).1, (h.1 hl).2.1, (h.1 hl).2.2, h.2.2⟩

/-- Claim C6: resolving the same tag name twice within one run returns the
same entity without a second store write (the second call changes
nothing); one call creates at most one tag row; and with an empty cache
entry and a persisted tag of that name, the persisted entity is returned
and the store is left unchanged. -/
theorem claim6_tag_cache (w : LaunchpadWriter) (st : Store) (tag_name : Str) :
    build_tag (build_tag w st tag_name).2.1 (build_tag w st tag_name).2.2 tag_name
      = build_tag w st tag_name ∧
    (build_tag w st tag_name).2.2.tags.length ≤ st.tags.length + 1 ∧
    (∀ t, List.lookup tag_name w.tag_map = none →
      tag_get_by_name st tag_name = some t →
      build_tag w st tag_name
        = (t, { w with tag_map := (tag_name, t) :: w.tag_map }, st)) := by
  refine ⟨?_, ?_, ?_⟩
  · cases hL : List.lookup tag_name w.tag_map with
    | some t => simp [build_tag, hL]
    | none =>
      cases hG : tag_get_by_name st tag_name with
      | some t => simp [build_tag, hL, hG, List.lookup_cons]
      | none => simp [build_tag, hL, hG, List.lookup_cons, tag_create]
  · cases hL : List.lookup tag_name w.tag_map with
    | some t => simp [build_tag, hL]
    | none =>
      cases hG : tag_get_by_name st tag_name with
      | some t => simp [build_tag, hL, hG]
      | none => simp [build_tag, hL, hG, tag_create]
  · intro t hL hG
    simp [build_tag, hL, hG]

/-- Witness for C6: a run over the store holding the persisted tag. -/
theorem claim6_witness :
    build_tag (build_tag freshWriter tagStore persistedTag.name).2.1
        (build_tag freshWriter tagStore persistedTag.name).2.2 persistedTag.name
      = build_tag freshWriter tagStore persistedTag.name ∧
    (build_tag freshWriter tagStore persistedTag.name).2.2.tags.length
      ≤ tagStore.tags.length + 1 ∧
    build_tag freshWriter tagStore persistedTag.name
      = (persistedTag,
         { freshWriter with tag_map := [(persistedTag.name, persistedTag)] },
         tagStore) := by
  have h := claim6_tag_cache freshWriter tagStore persistedTag.name
  exact ⟨h.1, h.2.1, h.2.2 persistedTag (by decide) (by decide)⟩

/-- Claim C5: a discovery failure records the deterministic placeholder
openid derived from the username; re-resolving the same external user
within the run returns the same local user and changes nothing; and in a
fresh run whose store already holds a user with that placeholder openid,
that persisted user is returned and no duplicate is created. -/
theorem claim5_identity_fallback (d : Str → Option Str) (w : LaunchpadWriter)
    (st : Store) (u : LpUser)
    (hd : d u.web_link = none)
    (hfresh : List.lookup u.web_link w.openid_map = none) :
    List.lookup u.web_link (write_user d w st (some u)).2.1.openid_map
      = some (invalidOpenid u.name) ∧
    write_user d (write_user d w st (some u)).2.1 (write_user d w st (some u)).2.2
        (some u)
      = write_user d w st (some u) ∧
    (∀ (w2 : LaunchpadWriter) (st2 : Store) (user : UserRec),
      List.lookup u.web_link w2.openid_map = none →
      List.lookup (invalidOpenid u.name) w2.user_map = none →
      user_get_by_openid st2 (invalidOpenid u.name) = some user →
      write_user d w2 st2 (some u)
        = (some user,
           { w2 with
               openid_map := (u.web_link, invalidOpenid u.name) :: w2.openid_map,
               user_map := (invalidOpenid u.name, user) :: w2.user_map },
           st2)) := by
  refine ⟨?_, ?_, ?_⟩
  · cases hM : List.lookup (invalidOpenid u.name) w.user_map with
    | some user => simp [write_user, hfresh, hd, hM, List.lookup_cons]
    | none =>
      cases hG : user_get_by_openid st (invalidOpenid u.name) with
      | some user => simp [write_user, hfresh, hd, hM, hG, List.lookup_cons]
      | none => simp [write_user, hfresh, hd, hM, hG, List.lookup_cons]
  · cases hM : List.lookup (invalidOpenid u.name) w.user_map with
    | some user => simp [write_user, hfresh, hd, hM, List.lookup_cons]
    | none =>
      cases hG : user_get_by_openid st (invalidOpenid u.name) with
      | some user => simp [write_user, hfresh, hd, hM, hG, List.lookup_cons]
      | none => simp [write_user, hfresh, hd, hM, hG, List.lookup_cons, user_create]
  · intro w2 st2 user h2f h2m h2g
    simp [write_user, h2f, hd, h2m, h2g, List.lookup_cons]

/-- Witness for C5: the discovery failure for the concrete Launchpad user
records the placeholder, re-resolution is stable, and the run over the
store holding the placeholder user reuses it. -/
theorem claim5_witness :
    List.lookup lpAlice.web_link
        (write_user dNone freshWriter baseStore (some lpAlice)).2.1.openid_map
      = some (invalidOpenid lpAlice.name) ∧
    write_user dNone (write_user dNone freshWriter baseStore (some lpAlice)).2.1
        (write_user dNone freshWriter baseStore (some lpAlice)).2.2 (some lpAlice)
      = write_user dNone freshWriter baseStore (some lpAlice) ∧
    write_user dNone freshWriter userStore (some lpAlice)
      = (some placeholderUser,
         { freshWriter with
             openid_map := [(lpAlice.web_link, invalidOpenid lpAlice.name)],
             user_map := [(invalidOpenid lpAlice.name, placeholderUser)] },
         userStore) := by
  have h := claim5_identity_fallback dNone freshWriter baseStore lpAlice rfl (by decide)
  exact ⟨h.1, h.2.1,
    h.2.2 freshWriter userStore placeholderUser (by decide) (by decide) (by decide)⟩

/-- Claim C2: when the store already holds M user-comment events for the
story and the bug reports N messages (M at most N), a successful write_bug
only appends to the event and comment lists, creating exactly N−M new
comment/user-comment-event pairs, one per message M..N−1 in order: the new
comments carry those messages contents and timestamps in order, and the
new user-comment events reference the new comments pairwise in order. -/
theorem claim2_comment_resume (d : Str → Option Str) (w : LaunchpadWriter) (st : Store)
    (owner : UserRec) (assignee : Option UserRec) (priority status : Str)
    (tags : List TagRec) (bug : LpBug) (lid M : Nat)
    (s' : StoryRec) (w' : LaunchpadWriter) (st' : Store)
    (hId : extractLaunchpadId bug.self_link = some lid)
    (hM : count_events st lid USER_COMMENT = M)
    (hMN : M ≤ bug.messages.length)
    (h1 : write_bug d w st owner assignee priority status tags bug
            = some (some s', w', st')) :
    st'.events = st.events ++ st'.events.drop st.events.length ∧
    ((st'.events.drop st.events.length).filter (isEventOf lid USER_COMMENT)).length
      = bug.messages.length - M ∧
    ((st'.events.drop st.events.length).filter (isEventOf lid USER_COMMENT)).map
        EventRec.created_at
      = (bug.messages.drop M).map (fun m => some m.date_created) ∧
    ((st'.events.drop st.events.length).filter (isEventOf lid USER_COMMENT)).map
        EventRec.comment_id
      = (st'.comments.drop st.comments.length).map (fun c => some c.id) ∧
    st'.comments = st.comments ++ st'.comments.drop st.comments.length ∧
    (st'.comments.drop st.comments.length).map CommentRec.content
      = (bug.messages.drop M).map LpMessage.content ∧
    (st'.comments.drop st.comments.length).map CommentRec.created_at
      = (bug.messages.drop M).map LpMessage.date_created ∧
    count_events st' lid USER_COMMENT = M + (bug.messages.length - M) := by
  rw [write_bug_eq_of_id d w st owner assignee priority status tags bug lid hId,
    upsertedStore_count_uc, hM] at h1
  cases hrep : replay_messages d lid w
      (upsertedStore w st owner assignee priority status tags bug lid)
      (bug.messages.drop M) with
  | none => rw [hrep] at h1; simp at h1
  | some q =>
    rw [hrep] at h1
    simp only [Option.map_some, Option.map_some', Option.some.injEq,
      Prod.mk.injEq] at h1
    obtain ⟨hstory, hw, hst⟩ := h1
    obtain ⟨cs, es, hc, he, hs, ht, htg, mc, mca, mec, mecr, hlen, hall⟩ :=
      replay_messages_some_spec d lid _ _ _ q.1 q.2 (by rw [hrep])
    obtain ⟨pre, hev, hmem, -, -⟩ :=
      upsertedStore_events_spec w st owner assignee priority status tags bug lid
    have hucom : (upsertedStore w st owner assignee priority status tags bug lid).comments
        = st.comments := upsertedStore_comments w st owner assignee priority status tags bug lid
    have hevents' : st'.events = st.events ++ (pre ++ es) := by
      rw [← hst, he, hev, List.append_assoc]
    have hdropev : st'.events.drop st.events.length = pre ++ es := by
      rw [hevents', List.drop_left]
    have hcomments' : st'.comments = st.comments ++ cs := by
      rw [← hst, hc, hucom]
    have hdropc : st'.comments.drop st.comments.length = cs := by
      rw [hcomments', List.drop_left]
    have hfpre : pre.filter (isEventOf lid USER_COMMENT) = [] := by
      rw [List.filter_eq_nil_iff]
      intro e he'
      rcases hmem e he' with ⟨h1', h2' | h2'⟩ <;>
        simp [isEventOf, h2', sc_beq_uc, tc_beq_uc]
    have hfes : es.filter (isEventOf lid USER_COMMENT) = es := by
      rw [List.filter_eq_self]
      intro e he'
      rcases hall e he' with ⟨h1', h2'⟩
      simp [isEventOf, h1', h2', uc_beq_uc]
    have hfilter : (pre ++ es).filter (isEventOf lid USER_COMMENT) = es := by
      rw [List.filter_append, hfpre, hfes, List.nil_append]
    have heslen : es.length = bug.messages.length - M := by
      rw [hlen, List.length_drop]
    refine ⟨?_, ?_, ?_, ?_, ?_, ?_, ?_, ?_⟩
    · rw [hdropev, hevents']
    · rw [hdropev, hfilter, heslen]
    · rw [hdropev, hfilter]
      exact mecr
    · rw [hdropev, hfilter, hdropc]
      exact mec
    · rw [hdropc, hcomments']
    · rw [hdropc]
      exact mc
    · rw [hdropc]
      exact mca
    · unfold count_events
      rw [hevents', List.countP_append, List.countP_append]
      have hpre0 : pre.countP (isEventOf lid USER_COMMENT) = 0 := by
        rw [List.countP_eq_zero]
        intro e he'
        rcases hmem e he' with ⟨h1', h2' | h2'⟩ <;>
          simp [isEventOf, h2', sc_beq_uc, tc_beq_uc]
      have hesall : es.countP (isEventOf lid USER_COMMENT) = es.length := by
        rw [List.countP_eq_length]
        intro e he'
        rcases hall e he' with ⟨h1', h2'⟩
        simp [isEventOf, h1', h2', uc_beq_uc]
      rw [hpre0, hesall, heslen]
      have : st.events.countP (isEventOf lid USER_COMMENT) = M := hM
      omega

theorem uc_beq_sc : (USER_COMMENT == STORY_CREATED) = false := by decide

theorem uc_beq_tc : (USER_COMMENT == TASK_CREATED) = false := by decide

theorem find?_eq_none_of_countP_zero {α : Type} {p : α → Bool} {l : List α}
    (h : l.countP p = 0) : l.find? p = none :=
  List.find?_eq_none.mpr (List.countP_eq_zero.mp h)

theorem exists_find?_some_of_countP_pos {α : Type} {p : α → Bool} {l : List α}
    (h : 0 < l.countP p) : ∃ a, l.find? p = some a :=
  Option.isSome_iff_exists.mp (List.find?_isSome.mpr (List.countP_pos_iff.mp h))

theorem countP_map_upsert (l : List StoryRec) (lid : Nat) (vals : StoryRec)
    (hvals : (vals.id == lid) = true) :
    (l.map (fun s => if s.id == lid then vals else s)).countP (isStoryFor lid)
      = l.countP (isStoryFor lid) := by
  induction l with
  | nil => rfl
  | cons s rest ih =>
    simp only [List.map_cons, List.countP_cons, ih]
    by_cases h : (s.id == lid) = true
    · simp [isStoryFor, h, hvals]
    · simp [isStoryFor, h]

/-- Claim C1: starting from a store with no story, task or events for the
extracted bug id, two successful runs of write_bug with the same bug leave
exactly one story keyed by that id, exactly one task referencing it,
exactly one story-created event and exactly one task-created event; the
second run updates the story in place (same number of story rows) and
creates no task and no events at all. -/
theorem claim1_idempotent_upsert (d : Str → Option Str) (w : LaunchpadWriter)
    (st : Store) (owner : UserRec) (assignee : Option UserRec)
    (priority status : Str) (tags : List TagRec) (bug : LpBug) (lid : Nat)
    (s1 s2 : StoryRec) (w1 w2 : LaunchpadWriter) (st1 st2 : Store)
    (hId : extractLaunchpadId bug.self_link = some lid)
    (hS : st.stories.countP (isStoryFor lid) = 0)
    (hT : st.tasks.countP (isTaskFor lid) = 0)
    (hE : st.events.countP (fun e => e.story_id == lid) = 0)
    (h1 : write_bug d w st owner assignee priority status tags bug
            = some (some s1, w1, st1))
    (h2 : write_bug d w1 st1 owner assignee priority status tags bug
            = some (some s2, w2, st2)) :
    st2.stories.countP (isStoryFor lid) = 1 ∧
    st2.tasks.countP (isTaskFor lid) = 1 ∧
    count_events st2 lid STORY_CREATED = 1 ∧
    count_events st2 lid TASK_CREATED = 1 ∧
    st2.stories.length = st1.stories.length ∧
    st2.tasks = st1.tasks ∧
    st2.events = st1.events := by
  have hEno : ∀ e ∈ st.events, (e.story_id == lid) = false := by
    intro e he
    have := List.countP_eq_zero.mp hE e he
    exact Bool.not_eq_true _ ▸ eq_false_of_ne_true this
  have hgetN : entity_get_story st lid = none :=
    find?_eq_none_of_countP_zero hS
  have htaskN : first_task_for_story st lid = none :=
    find?_eq_none_of_countP_zero hT
  have hSCN : first_event st lid STORY_CREATED = none :=
    List.find?_eq_none.mpr (fun e he => by simp [isEventOf, hEno e he])
  have hTCN : first_event st lid TASK_CREATED = none :=
    List.find?_eq_none.mpr (fun e he => by simp [isEventOf, hEno e he])
  have hUC0 : count_events st lid USER_COMMENT = 0 :=
    List.countP_eq_zero.mpr (fun e he => by simp [isEventOf, hEno e he])
  -- first call
  rw [write_bug_eq_of_id d w st owner assignee priority status tags bug lid hId,
    upsertedStore_count_uc, hUC0, List.drop_zero] at h1
  cases hrep1 : replay_messages d lid w
      (upsertedStore w st owner assignee priority status tags bug lid)
      bug.messages with
  | none => rw [hrep1] at h1; simp at h1
  | some q1 =>
    rw [hrep1] at h1
    simp only [Option.map_some, Option.map_some', Option.some.injEq,
      Prod.mk.injEq] at h1
    obtain ⟨hs1eq, hw1, hst1⟩ := h1
    obtain ⟨cs1, es1, hc1, he1, hstos1, htks1, htgs1, mc1, mca1, mec1, mecr1,
      hlen1, hall1⟩ := replay_messages_some_spec d lid _ _ _ q1.1 q1.2 (by rw [hrep1])
    obtain ⟨pre1, hev1, hmem1, hfresh1, -⟩ :=
      upsertedStore_events_spec w st owner assignee priority status tags bug lid
    obtain ⟨e1, e2, hpre1eq, he1t, he2t, he1s, he2s⟩ := hfresh1 hSCN hTCN
    obtain ⟨tsk, htsk, htskid⟩ :=
      upsertedStore_tasks_create w st owner assignee priority status tags bug lid htaskN
    have hst1stories : st1.stories = st.stories ++ [storyValsOf lid owner tags bug] := by
      rw [← hst1, hstos1,
        upsertedStore_stories_create w st owner assignee priority status tags bug lid hgetN]
    have hst1tasks : st1.tasks = st.tasks ++ [tsk] := by
      rw [← hst1, htks1, htsk]
    have hst1events : st1.events = st.events ++ (pre1 ++ es1) := by
      rw [← hst1, he1, hev1, List.append_assoc]
    have cnt1S : st1.stories.countP (isStoryFor lid) = 1 := by
      rw [hst1stories, List.countP_append, hS]
      simp [isStoryFor, storyValsOf]
    have cnt1T : st1.tasks.countP (isTaskFor lid) = 1 := by
      rw [hst1tasks, List.countP_append, hT]
      simp [isTaskFor, htskid]
    have hpre1SC : pre1.countP (isEventOf lid STORY_CREATED) = 1 := by
      rw [hpre1eq]
      simp [List.countP_cons, isEventOf, he1t, he2t, he1s, he2s, tc_beq_sc]
    have hpre1TC : pre1.countP (isEventOf lid TASK_CREATED) = 1 := by
      rw [hpre1eq]
      simp [List.countP_cons, isEventOf, he1t, he2t, he1s, he2s, sc_beq_tc]
    have hes1SC : es1.countP (isEventOf lid STORY_CREATED) = 0 :=
      List.countP_eq_zero.mpr (fun e he => by
        rcases hall1 e he with ⟨h1', h2'⟩
        simp [isEventOf, h2', uc_beq_sc])
    have hes1TC : es1.countP (isEventOf lid TASK_CREATED) = 0 :=
      List.countP_eq_zero.mpr (fun e he => by
        rcases hall1 e he with ⟨h1', h2'⟩
        simp [isEventOf, h2', uc_beq_tc])
    have hstE0SC : st.events.countP (isEventOf lid STORY_CREATED) = 0 :=
      List.countP_eq_zero.mpr (fun e he => by simp [isEventOf, hEno e he])
    have hstE0TC : st.events.countP (isEventOf lid TASK_CREATED) = 0 :=
      List.countP_eq_zero.mpr (fun e he => by simp [isEventOf, hEno e he])
    have cnt1SC : count_events st1 lid STORY_CREATED = 1 := by
      unfold count_events
      rw [hst1events, List.countP_append, List.countP_append, hstE0SC, hpre1SC, hes1SC]
    have cnt1TC : count_events st1 lid TASK_CREATED = 1 := by
      unfold count_events
      rw [hst1events, List.countP_append, List.countP_append, hstE0TC, hpre1TC, hes1TC]
    have cnt1UC : count_events st1 lid USER_COMMENT = bug.messages.length := by
      unfold count_events
      rw [hst1events, List.countP_append, List.countP_append]
      have hUC0s : st.events.countP (isEventOf lid USER_COMMENT) = 0 := hUC0
      have hpre1UC : pre1.countP (isEventOf lid USER_COMMENT) = 0 := by
        rw [hpre1eq]
        simp [List.countP_cons, isEventOf, he1t, he2t, sc_beq_uc, tc_beq_uc]
      have hes1UC : es1.countP (isEventOf lid USER_COMMENT) = es1.length :=
        List.countP_eq_length.mpr (fun e he => by
          rcases hall1 e he with ⟨h1', h2'⟩
          simp [isEventOf, h1', h2', uc_beq_uc])
      omega
    -- second call
    rw [write_bug_eq_of_id d w1 st1 owner assignee priority status tags bug lid hId,
      upsertedStore_count_uc, cnt1UC, List.drop_length] at h2
    have hrep2 : replay_messages d lid w1
        (upsertedStore w1 st1 owner assignee priority status tags bug lid) []
        = some (w1, upsertedStore w1 st1 owner assignee priority status tags bug lid) := rfl
    rw [hrep2] at h2
    simp only [Option.map_some, Option.map_some', Option.some.injEq,
      Prod.mk.injEq] at h2
    obtain ⟨hs2eq, hw2, hst2⟩ := h2
    obtain ⟨s0, hget1⟩ : ∃ s0, entity_get_story st1 lid = some s0 :=
      exists_find?_some_of_countP_pos (by rw [cnt1S]; exact Nat.one_pos)
    obtain ⟨t0, htask1⟩ : ∃ t0, first_task_for_story st1 lid = some t0 :=
      exists_find?_some_of_countP_pos (by rw [cnt1T]; exact Nat.one_pos)
    obtain ⟨eS, hSC1⟩ : ∃ eS, first_event st1 lid STORY_CREATED = some eS :=
      exists_find?_some_of_countP_pos (by
        have : count_events st1 lid STORY_CREATED = 1 := cnt1SC
        unfold count_events at this
        rw [this]
        exact Nat.one_pos)
    obtain ⟨eT, hTC1⟩ : ∃ eT, first_event st1 lid TASK_CREATED = some eT :=
      exists_find?_some_of_countP_pos (by
        have : count_events st1 lid TASK_CREATED = 1 := cnt1TC
        unfold count_events at this
        rw [this]
        exact Nat.one_pos)
    obtain ⟨pre2, hev2, hmem2, -, hpre2some⟩ :=
      upsertedStore_events_spec w1 st1 owner assignee priority status tags bug lid
    have hpre2nil : pre2 = [] := hpre2some eS eT hSC1 hTC1
    have hst2events : st2.events = st1.events := by
      rw [← hst2, hev2, hpre2nil, List.append_nil]
    have hst2tasks : st2.tasks = st1.tasks := by
      rw [← hst2,
        upsertedStore_tasks_existing w1 st1 owner assignee priority status tags bug lid
          t0 htask1]
    have hst2stories : st2.stories
        = st1.stories.map (fun s => if s.id == lid then storyValsOf lid owner tags bug else s) := by
      rw [← hst2,
        upsertedStore_stories_update w1 st1 owner assignee priority status tags bug lid
          s0 hget1]
    refine ⟨?_, ?_, ?_, ?_, ?_, hst2tasks, hst2events⟩
    · rw [hst2stories, countP_map_upsert _ _ _ (by simp [storyValsOf]), cnt1S]
    · rw [hst2tasks, cnt1T]
    · unfold count_events
      rw [hst2events]
      exact cnt1SC
    · unfold count_events
      rw [hst2events]
      exact cnt1TC
    · rw [hst2stories, List.length_map]

/-- Witness for C2: resuming the import over a store holding one recorded
comment event while the bug reports two messages creates exactly one new
comment/event pair, for the second message. -/
theorem claim2_witness :
    count_events resumeStore 42 USER_COMMENT = 1 ∧
    write_bug dNone freshWriter resumeStore sampleOwner none mediumPr todoSt [] twoMsgBug
      = some (some storyResume, wResume, stResume) ∧
    (stResume.events = resumeStore.events
        ++ stResume.events.drop resumeStore.events.length ∧
     ((stResume.events.drop resumeStore.events.length).filter
        (isEventOf 42 USER_COMMENT)).length = twoMsgBug.messages.length - 1 ∧
     (stResume.comments.drop resumeStore.comments.length).map CommentRec.content
        = (twoMsgBug.messages.drop 1).map LpMessage.content ∧
     count_events stResume 42 USER_COMMENT = 1 + (twoMsgBug.messages.length - 1)) := by
  have h := claim2_comment_resume dNone freshWriter resumeStore sampleOwner none mediumPr
    todoSt [] twoMsgBug 42 1 storyResume wResume stResume (by decide) (by decide)
    (by decide) (by decide)
  exact ⟨by decide, by decide, h.1, h.2.1, h.2.2.2.2.2.1, h.2.2.2.2.2.2.2⟩

/-- Witness for C1: importing the concrete bug twice into the empty store
leaves one story, one task, one story-created and one task-created event,
with the second run changing no task and no event. -/
theorem claim1_witness :
    extractLaunchpadId goodBug.self_link = some 42 ∧
    write_bug dNone freshWriter baseStore sampleOwner none mediumPr todoSt [] goodBug
      = some (some story1fix, w1fix, st1fix) ∧
    write_bug dNone w1fix st1fix sampleOwner none mediumPr todoSt [] goodBug
      = some (some story2fix, w2fix, st2fix) ∧
    (st2fix.stories.countP (isStoryFor 42) = 1 ∧
     st2fix.tasks.countP (isTaskFor 42) = 1 ∧
     count_events st2fix 42 STORY_CREATED = 1 ∧
     count_events st2fix 42 TASK_CREATED = 1 ∧
     st2fix.stories.length = st1fix.stories.length ∧
     st2fix.tasks = st1fix.tasks ∧
     st2fix.events = st1fix.events) := by
  refine ⟨by decide, by decide, by decide, ?_⟩
  exact claim1_idempotent_upsert dNone freshWriter baseStore sampleOwner none mediumPr
    todoSt [] goodBug 42 story1fix story2fix w1fix w2fix st1fix st2fix
    (by decide) (by decide) (by decide) (by decide) (by decide) (by decide)
